import Mathlib

/-!
Shallow embedding of the `givetypst` document-generation service
(Go, package `main`): the request handlers, the size-bounded artifact
fetcher, the data resolver and the temp-directory compilation sandbox,
translated from `server.go` and `typst.go`.  External effects (the
gocloud.dev blob store, `encoding/json`, the OS filesystem and the
external `typst` process) are modelled by explicit environments/oracles;
every step the Go code takes, including each error branch and each
wrapped error message, is mirrored by a branch here.
-/

namespace Givetypst

/-- JSON values, as produced by `encoding/json` decoding into `any`.
Numbers are modelled as integers (the distinction plays no role in any
claim; the server never inspects data values). -/
inductive Json where
  | null
  | bool (b : Bool)
  | num (n : Int)
  | str (s : String)
  | arr (xs : List Json)
  | obj (fields : List (String × Json))

/-- A decoded JSON object mapping, Go's `map[string]any`.  In the Go
code a `map[string]any` variable can additionally be `nil`; that case is
modelled by `Option DataMap` with `none` for the nil map. -/
abbrev DataMap : Type := List (String × Json)

/-- Raw bytes (`[]byte`): a list of byte values. -/
abbrev Bytes : Type := List Nat

/-- The byte content of a Go string (an injective byte encoding of its
characters; the server treats template sources opaquely). -/
def strBytes (s : String) : Bytes := s.data.map (fun c => c.toNat)

/-- The Go string built from raw bytes, `string(data)`. -/
def bytesToStr (bs : Bytes) : String := ⟨bs.map (fun n => Char.ofNat n)⟩

/-- `s` contains `pat` as a contiguous substring. -/
def containsStr (s pat : String) : Prop :=
  ∃ a b : List Char, s.data = a ++ pat.data ++ b

/-- `defaultMaxTemplateSize` from `server.go`: 1 MiB. -/
def defaultMaxTemplateSize : Int := 1024 * 1024

/-- `defaultMaxDataSize` from `server.go`: 10 MiB. -/
def defaultMaxDataSize : Int := 10 * 1024 * 1024

/-- `ServerConfig` from `server.go`.  The size fields are Go `int64`,
modelled as `Int`. -/
structure ServerConfig where
  bucketURL : String
  maxTemplateSize : Int
  maxDataSize : Int

/-- `Server` from `server.go` (the logger carries no observable state
relevant to any claim and is omitted). -/
structure Server where
  config : ServerConfig

/-- `NewServer` from `server.go`: applies the size-ceiling defaults when
a configured value is not positive. -/
def NewServer (config : ServerConfig) : Server :=
  let c1 :=
    if config.maxTemplateSize ≤ 0 then
      { config with maxTemplateSize := defaultMaxTemplateSize }
    else config
  let c2 :=
    if c1.maxDataSize ≤ 0 then
      { c1 with maxDataSize := defaultMaxDataSize }
    else c1
  { config := c2 }

/-- One observable operation against the byte store. -/
inductive StorageOp where
  | openBucket
  | readKey (key : String)
deriving DecidableEq, Repr

/-- Environment modelling the external collaborators of the HTTP server:
the gocloud.dev blob store (`blob.OpenBucket` / `bucket.NewReader` /
stream reads), `json.Unmarshal` into `map[string]any`, and the outcome
of `compileTypst`.  `objects` is the store content; `jsonParse bs = .ok
none` models JSON `null` decoding to a nil map. -/
structure ServerEnv where
  openOk : Bool
  openErr : String
  objects : String → Option Bytes
  keyErr : String → String
  readErr : Option String
  jsonParse : Bytes → Except String (Option DataMap)
  compileResult : String → Option DataMap → Except String Bytes

/-- `fetchFromBucket` from `server.go`: open the bucket, open a reader
for `key`, and read at most `maxSize` bytes
(`io.ReadAll(io.LimitReader(reader, maxSize))`).  Returns the result
together with the trace of storage operations performed. -/
def fetchFromBucket (env : ServerEnv) (key : String) (maxSize : Int) :
    Except String Bytes × List StorageOp :=
  if env.openOk then
    match env.objects key with
    | none => (.error ("open key " ++ key ++ ": " ++ env.keyErr key),
               [.openBucket, .readKey key])
    | some content =>
      match env.readErr with
      | some e => (.error ("read: " ++ e), [.openBucket, .readKey key])
      | none => (.ok (content.take maxSize.toNat), [.openBucket, .readKey key])
  else
    (.error ("open bucket: " ++ env.openErr), [.openBucket])

/-- `fetchTemplate` from `server.go`: fetch bounded by the template size
ceiling, return the bytes as a string. -/
def fetchTemplate (env : ServerEnv) (s : Server) (key : String) :
    Except String String × List StorageOp :=
  let fr := fetchFromBucket env key s.config.maxTemplateSize
  match fr.1 with
  | .error e => (.error e, fr.2)
  | .ok bs => (.ok (bytesToStr bs), fr.2)

/-- `fetchData` from `server.go`: fetch bounded by the data size
ceiling, then `json.Unmarshal` into a `map[string]any`; a parse failure
is wrapped as `invalid JSON: %w`. -/
def fetchData (env : ServerEnv) (s : Server) (key : String) :
    Except String (Option DataMap) × List StorageOp :=
  let fr := fetchFromBucket env key s.config.maxDataSize
  match fr.1 with
  | .error e => (.error e, fr.2)
  | .ok raw =>
    match env.jsonParse raw with
    | .error pe => (.error ("invalid JSON: " ++ pe), fr.2)
    | .ok d => (.ok d, fr.2)

/-- An HTTP response as the handlers build it: status code, the two
headers the success path sets explicitly, and the body.  `http.Error`
sets a plain-text content type and appends a newline to the message. -/
structure HttpResponse where
  status : Nat
  contentType : Option String
  contentDisposition : Option String
  body : String
deriving DecidableEq, Repr

/-- Go's `http.Error(w, msg, status)`. -/
def httpError (msg : String) (status : Nat) : HttpResponse :=
  { status := status
    contentType := some "text/plain; charset=utf-8"
    contentDisposition := none
    body := msg ++ "\n" }

/-- `GenerateRequest` from `server.go`, after JSON decoding.  `data` is
Go's `map[string]any` field: `none` is the nil map (field absent or
JSON `null`), `some []` is a decoded empty object `{}` — non-nil.
Absent string fields decode to `""`. -/
structure GenerateRequest where
  templateKey : String
  data : Option DataMap
  dataKey : String

/-- Outcome of `json.NewDecoder(r.Body).Decode(&req)` on the request
body: either a decode error or a decoded `GenerateRequest`. -/
inductive DecodedBody where
  | malformed
  | ok (req : GenerateRequest)

/-- The data-resolution block of `handleGenerate` (`server.go` lines
291–302): from the bucket when `dataKey` is set, otherwise the inline
data (possibly nil). -/
def resolveData (env : ServerEnv) (s : Server) (req : GenerateRequest) :
    Except String (Option DataMap) × List StorageOp :=
  if req.dataKey ≠ "" then
    let fr := fetchData env s req.dataKey
    match fr.1 with
    | .error e => (.error e, fr.2)
    | .ok d => (.ok d, fr.2)
  else
    (.ok req.data, [])

/-- `handleGenerate` from `server.go`: decode, validate `templateKey`,
reject both data sources, resolve data, fetch the template, compile,
respond with the PDF.  Returns the response together with the trace of
storage operations performed while handling the request. -/
def handleGenerate (env : ServerEnv) (s : Server) (body : DecodedBody) :
    HttpResponse × List StorageOp :=
  match body with
  | .malformed => (httpError "invalid request" 400, [])
  | .ok req =>
    if req.templateKey = "" then
      (httpError "templateKey is required" 400, [])
    else if req.data.isSome ∧ req.dataKey ≠ "" then
      (httpError "cannot specify both 'data' and 'dataKey'" 400, [])
    else
      let dr := resolveData env s req
      match dr.1 with
      | .error e => (httpError ("failed to fetch data: " ++ e) 500, dr.2)
      | .ok data =>
        let tr := fetchTemplate env s req.templateKey
        match tr.1 with
        | .error e =>
          (httpError ("failed to fetch template: " ++ e) 500, dr.2 ++ tr.2)
        | .ok source =>
          match env.compileResult source data with
          | .error e => (httpError e 500, dr.2 ++ tr.2)
          | .ok pdf =>
            ({ status := 200
               contentType := some "application/pdf"
               contentDisposition := some "inline; filename=\"output.pdf\""
               body := bytesToStr pdf }, dr.2 ++ tr.2)

/-- `handleHealth` from `server.go`: first `exec.LookPath("typst")`
(`typstOnPath` models its success), then `blob.OpenBucket`; both must
pass for the `OK` response.  Returns the response and the storage
operations performed. -/
def handleHealth (env : ServerEnv) (typstOnPath : Bool) :
    HttpResponse × List StorageOp :=
  if typstOnPath then
    if env.openOk then
      ({ status := 200, contentType := none, contentDisposition := none
         body := "OK" }, [.openBucket])
    else
      (httpError "failed to open bucket" 503, [.openBucket])
  else
    (httpError "typst not found" 503, [])

/-! ## The compilation sandbox (`typst.go`) -/

/-- `filePermissions` from `typst.go`: 0600, owner read/write only. -/
def filePermissions : Nat := 0o600

/-- `sourceFileName` from `typst.go`. -/
def sourceFileName : String := "main.typ"

/-- `outputFileName` from `typst.go`. -/
def outputFileName : String := "output.pdf"

/-- `dataFileName` from `typst.go`. -/
def dataFileName : String := "data.json"

/-- A filesystem node: a directory or a file with content and
permission bits. -/
inductive FsNode where
  | dir
  | file (content : Bytes) (perm : Nat)
deriving DecidableEq, Repr

/-- The filesystem as a path-keyed association list (later entries are
shadowed by earlier ones). -/
abbrev FS : Type := List (String × FsNode)

/-- Look a path up in the filesystem. -/
def fsLookup (fs : FS) (path : String) : Option FsNode :=
  match fs.find? (fun e => e.1 = path) with
  | some e => some e.2
  | none => none

/-- Create or overwrite a node at `path`. -/
def fsWrite (fs : FS) (path : String) (node : FsNode) : FS :=
  (path, node) :: fs.filter (fun e => ¬ e.1 = path)

/-- `p` lies strictly inside directory `dir`. -/
abbrev underDir (dir p : String) : Prop :=
  (dir ++ "/").data.isPrefixOf p.data

/-- `os.RemoveAll(dir)`: remove `dir` and everything under it. -/
def fsRemoveAll (fs : FS) (dir : String) : FS :=
  fs.filter (fun e => ¬ (e.1 = dir ∨ (dir ++ "/").data.isPrefixOf e.1.data))

/-- A recorded `os.WriteFile` call: path, content, permission bits. -/
structure FileWrite where
  path : String
  content : Bytes
  perm : Nat
deriving DecidableEq, Repr

/-- Environment modelling the external collaborators of
`compileTypstWith`: `os.MkdirTemp` (a name chosen from the current
filesystem, or an error), `json.MarshalIndent(data, "", "  ")`, the
success of each `os.WriteFile`, the `TypstCompiler.Compile` step (which
may transform the filesystem arbitrarily and fail), and the OS error
text when reading the output file fails. -/
structure CompileEnv where
  mkdirTemp : FS → Except String String
  marshalIndent : DataMap → Except String Bytes
  writeRes : String → Except String Unit
  compilerRun : FS → String → Except String Unit × FS
  readOutputErr : String

/-- Steps (3)–(5) of `compileTypstWith`: write the source file, run the
compiler, read back the output file.  `tr` is the trace of file writes
so far. -/
def compileAfterData (env : CompileEnv) (fs : FS) (workDir source : String)
    (tr : List FileWrite) : Except String Bytes × FS × List FileWrite :=
  let sourcePath := workDir ++ "/" ++ sourceFileName
  match env.writeRes sourcePath with
  | .error e => (.error ("failed to write source file: " ++ e), fs, tr)
  | .ok _ =>
    let fs1 := fsWrite fs sourcePath (.file (strBytes source) filePermissions)
    let tr1 := tr ++ [⟨sourcePath, strBytes source, filePermissions⟩]
    let cr := env.compilerRun fs1 workDir
    match cr.1 with
    | .error e => (.error e, cr.2, tr1)
    | .ok _ =>
      match fsLookup cr.2 (workDir ++ "/" ++ outputFileName) with
      | some (.file bytes _) => (.ok bytes, cr.2, tr1)
      | _ => (.error ("failed to read output PDF: " ++ env.readOutputErr),
              cr.2, tr1)

/-- The body of `compileTypstWith` between directory creation and the
deferred `os.RemoveAll`: optional data file, then source file, compile,
output read. -/
def compileTypstBody (env : CompileEnv) (fs : FS) (workDir source : String)
    (data : Option DataMap) : Except String Bytes × FS × List FileWrite :=
  match data with
  | some d =>
    match env.marshalIndent d with
    | .error e => (.error ("failed to marshal data: " ++ e), fs, [])
    | .ok dataBytes =>
      let dataPath := workDir ++ "/" ++ dataFileName
      match env.writeRes dataPath with
      | .error e => (.error ("failed to write data file: " ++ e), fs, [])
      | .ok _ =>
        compileAfterData env
          (fsWrite fs dataPath (.file dataBytes filePermissions))
          workDir source [⟨dataPath, dataBytes, filePermissions⟩]
  | none => compileAfterData env fs workDir source []

/-- `compileTypstWith` from `typst.go`: create a fresh temporary
directory, run the body, and — mirroring `defer os.RemoveAll(workDir)` —
remove the directory and all its contents on every exit path after a
successful `MkdirTemp`.  Returns the result, the final filesystem, and
the trace of file writes the call itself performed. -/
def compileTypstWith (env : CompileEnv) (fs0 : FS) (source : String)
    (data : Option DataMap) : Except String Bytes × FS × List FileWrite :=
  match env.mkdirTemp fs0 with
  | .error e => (.error ("failed to create temp dir: " ++ e), fs0, [])
  | .ok workDir =>
    let fs1 := fsWrite fs0 workDir .dir
    let r := compileTypstBody env fs1 workDir source data
    (r.1, fsRemoveAll r.2.1 workDir, r.2.2)

/-- A concrete test store environment: a template object `tpl` (bytes
of `= Hi`), a well-formed empty JSON object at `d`, and a compiler that
returns the bytes `%PDF`. -/
def testEnv : ServerEnv where
  openOk := true
  openErr := ""
  objects := fun k =>
    if k = "tpl" then some [61, 32, 72, 105]
    else if k = "d" then some [123, 125]
    else if k = "zz.json" then some [123]
    else none
  keyErr := fun _ => "blob (key) (code=NotFound)"
  readErr := none
  jsonParse := fun bs =>
    if bs = [123, 125] then .ok (some [])
    else .error "unexpected end of JSON input"
  compileResult := fun _ _ => .ok [37, 80, 68, 70]

/-- A concrete server with small explicit size ceilings. -/
def testServer : Server :=
  NewServer { bucketURL := "file:///tmp/bucket", maxTemplateSize := 100, maxDataSize := 50 }

/-! ## Helper lemmas -/

theorem containsStr_of_dataEq (s pat : String) (a b : List Char)
    (h : s.data = a ++ pat.data ++ b) : containsStr s pat :=
  ⟨a, b, h⟩

theorem not_containsStr_of_char (s pat : String) (c : Char)
    (hc : c ∈ pat.data) (hs : c ∉ s.data) : ¬ containsStr s pat := by
  rintro ⟨a, b, h⟩
  exact hs (by rw [h]; simp [hc])

theorem fsLookup_fsRemoveAll (fs : FS) (dir p : String)
    (h : p = dir ∨ underDir dir p) :
    fsLookup (fsRemoveAll fs dir) p = none := by
  induction fs with
  | nil => rfl
  | cons q t ih =>
    simp only [fsRemoveAll, List.filter_cons] at ih ⊢
    split
    · rename_i hkeep
      have hkeep' : ¬ (q.1 = dir ∨ ((dir ++ "/").data.isPrefixOf q.1.data = true)) := by
        simpa using hkeep
      have hqp : ¬ q.1 = p := by
        intro he
        rcases h with rfl | h
        · exact hkeep' (Or.inl he)
        · have h' : (dir ++ "/").data.isPrefixOf p.data = true := h
          rw [← he] at h'
          exact hkeep' (Or.inr h')
      simpa [fsLookup, List.find?_cons, hqp] using ih
    · exact ih

/-! ## Claims -/

/-- C1: for every key stored in the byte store with content `C`,
`fetchFromBucket` with bound `maxSize` returns `C` byte-identically when
`C` fits the bound, and returns exactly the first `maxSize` bytes of
`C` — without an error — when `C` is longer. -/
theorem fetchFromBucket_bounded_roundtrip
    (env : ServerEnv) (key : String) (maxSize : Int) (content : Bytes)
    (hopen : env.openOk = true) (hobj : env.objects key = some content)
    (hread : env.readErr = none) :
    ((content.length : Int) ≤ maxSize →
      (fetchFromBucket env key maxSize).1 = .ok content) ∧
    (maxSize < (content.length : Int) →
      (fetchFromBucket env key maxSize).1 = .ok (content.take maxSize.toNat)) := by
  constructor
  · intro hle
    have htake : content.take maxSize.toNat = content :=
      List.take_of_length_le (by omega)
    simp [fetchFromBucket, hopen, hobj, hread, htake]
  · intro _
    simp [fetchFromBucket, hopen, hobj, hread]

theorem fetchFromBucket_bounded_roundtrip_witness :
    (fetchFromBucket testEnv "tpl" 100).1 = .ok [61, 32, 72, 105] ∧
    (fetchFromBucket testEnv "tpl" 2).1 = .ok [61, 32] :=
  ⟨(fetchFromBucket_bounded_roundtrip testEnv "tpl" 100 [61, 32, 72, 105]
      rfl (by decide) rfl).1 (by decide),
   (fetchFromBucket_bounded_roundtrip testEnv "tpl" 2 [61, 32, 72, 105]
      rfl (by decide) rfl).2 (by decide)⟩

/-- C6: a decoded request whose `templateKey` is empty (the decoded
value both of a missing and of an explicitly empty field) is answered
`400` with a body containing `templateKey is required`, whatever the
other fields hold. -/
theorem handleGenerate_empty_templateKey_400
    (env : ServerEnv) (s : Server) (d : Option DataMap) (dk : String) :
    (handleGenerate env s (.ok ⟨"", d, dk⟩)).1.status = 400 ∧
    containsStr (handleGenerate env s (.ok ⟨"", d, dk⟩)).1.body
      "templateKey is required" := by
  constructor
  · rfl
  · exact ⟨[], ['\n'], by simp [handleGenerate, httpError]⟩

/-- C9: `NewServer` substitutes 1 MiB for a zero template ceiling and
10 MiB for a zero data ceiling, and keeps positive configured values
unchanged. -/
theorem NewServer_size_defaults (c : ServerConfig) :
    ((c.maxTemplateSize = 0 →
        (NewServer c).config.maxTemplateSize = 1048576) ∧
     (0 < c.maxTemplateSize →
        (NewServer c).config.maxTemplateSize = c.maxTemplateSize)) ∧
    ((c.maxDataSize = 0 →
        (NewServer c).config.maxDataSize = 10485760) ∧
     (0 < c.maxDataSize →
        (NewServer c).config.maxDataSize = c.maxDataSize)) := by
  have ht : (NewServer c).config.maxTemplateSize =
      if c.maxTemplateSize ≤ 0 then 1048576 else c.maxTemplateSize := by
    by_cases h1 : c.maxTemplateSize ≤ 0 <;> by_cases h2 : c.maxDataSize ≤ 0 <;>
      simp [NewServer, defaultMaxTemplateSize, defaultMaxDataSize, h1, h2]
  have hd : (NewServer c).config.maxDataSize =
      if c.maxDataSize ≤ 0 then 10485760 else c.maxDataSize := by
    by_cases h1 : c.maxTemplateSize ≤ 0 <;> by_cases h2 : c.maxDataSize ≤ 0 <;>
      simp [NewServer, defaultMaxTemplateSize, defaultMaxDataSize, h1, h2]
  refine ⟨⟨fun h => ?_, fun h => ?_⟩, ⟨fun h => ?_, fun h => ?_⟩⟩
  · rw [ht, if_pos (by omega)]
  · rw [ht, if_neg (by omega)]
  · rw [hd, if_pos (by omega)]
  · rw [hd, if_neg (by omega)]

theorem NewServer_size_defaults_witness :
    (NewServer ⟨"b", 0, 0⟩).config.maxTemplateSize = 1048576 ∧
    (NewServer ⟨"b", 0, 0⟩).config.maxDataSize = 10485760 ∧
    (NewServer ⟨"b", 7, 9⟩).config.maxTemplateSize = 7 ∧
    (NewServer ⟨"b", 7, 9⟩).config.maxDataSize = 9 :=
  ⟨(NewServer_size_defaults ⟨"b", 0, 0⟩).1.1 rfl,
   (NewServer_size_defaults ⟨"b", 0, 0⟩).2.1 rfl,
   (NewServer_size_defaults ⟨"b", 7, 9⟩).1.2 (by decide),
   (NewServer_size_defaults ⟨"b", 7, 9⟩).2.2 (by decide)⟩

/-- C7: the health endpoint answers `200` with body `OK` exactly when
the `typst` executable is resolvable and the bucket opens; an
unresolvable compiler gives `503` containing `typst not found` (checked
first), a resolvable compiler with an unopenable bucket gives `503`
containing `failed to open bucket`; the only storage effect is opening
(and closing) the bucket — no key is ever read. -/
theorem handleHealth_contract (env : ServerEnv) (typstOnPath : Bool) :
    (((handleHealth env typstOnPath).1.status = 200 ∧
      (handleHealth env typstOnPath).1.body = "OK") ↔
      (typstOnPath = true ∧ env.openOk = true)) ∧
    (typstOnPath = false →
      (handleHealth env typstOnPath).1.status = 503 ∧
      containsStr (handleHealth env typstOnPath).1.body "typst not found") ∧
    (typstOnPath = true → env.openOk = false →
      (handleHealth env typstOnPath).1.status = 503 ∧
      containsStr (handleHealth env typstOnPath).1.body "failed to open bucket") ∧
    (∀ op ∈ (handleHealth env typstOnPath).2, op = StorageOp.openBucket) := by
  refine ⟨?_, ?_, ?_, ?_⟩
  · cases typstOnPath <;> cases henv : env.openOk <;>
      simp [handleHealth, httpError, henv]
  · intro h
    subst h
    exact ⟨rfl, ⟨[], ['\n'], rfl⟩⟩
  · intro h1 h2
    subst h1
    constructor
    · simp [handleHealth, h2, httpError]
    · have hb : (handleHealth env true).1.body = "failed to open bucket\n" := by
        simp [handleHealth, h2, httpError]
      rw [hb]
      exact ⟨[], ['\n'], rfl⟩
  · intro op hop
    cases typstOnPath with
    | false => simp [handleHealth] at hop
    | true =>
      cases henv : env.openOk <;> simp [handleHealth, henv] at hop <;> exact hop

theorem handleHealth_contract_witness :
    ((handleHealth testEnv true).1.status = 200 ∧
     (handleHealth testEnv true).1.body = "OK") ∧
    (handleHealth { testEnv with openOk := false } true).1.status = 503 ∧
    (handleHealth testEnv false).1.status = 503 :=
  ⟨(handleHealth_contract testEnv true).1.mpr ⟨rfl, rfl⟩,
   ((handleHealth_contract { testEnv with openOk := false } true).2.2.1 rfl rfl).1,
   ((handleHealth_contract testEnv false).2.1 rfl).1⟩

/-- C3: a decoded request carrying a non-empty `templateKey`, a non-nil
inline `data` object and a non-empty `dataKey` is answered `400` with a
body containing `cannot specify both 'data' and 'dataKey'`, and no
storage operation at all is performed for that request. -/
theorem handleGenerate_conflicting_sources_400
    (env : ServerEnv) (s : Server) (tk dk : String) (d : DataMap)
    (htk : tk ≠ "") (hdk : dk ≠ "") :
    (handleGenerate env s (.ok ⟨tk, some d, dk⟩)).1.status = 400 ∧
    containsStr (handleGenerate env s (.ok ⟨tk, some d, dk⟩)).1.body
      "cannot specify both 'data' and 'dataKey'" ∧
    (handleGenerate env s (.ok ⟨tk, some d, dk⟩)).2 = [] := by
  have hred : handleGenerate env s (.ok ⟨tk, some d, dk⟩) =
      (httpError "cannot specify both 'data' and 'dataKey'" 400, []) := by
    simp [handleGenerate, htk, hdk]
  refine ⟨by rw [hred]; rfl, ?_, by rw [hred]⟩
  rw [hred]
  exact ⟨[], ['\n'], rfl⟩

theorem handleGenerate_conflicting_sources_400_witness :
    (handleGenerate testEnv testServer (.ok ⟨"tpl", some [], "d"⟩)).1.status = 400 ∧
    (handleGenerate testEnv testServer (.ok ⟨"tpl", some [], "d"⟩)).2 = [] :=
  ⟨(handleGenerate_conflicting_sources_400 testEnv testServer "tpl" "d" []
      (by decide) (by decide)).1,
   (handleGenerate_conflicting_sources_400 testEnv testServer "tpl" "d" []
      (by decide) (by decide)).2.2⟩

/-- C10: presence of inline data is decided by nil-ness, not emptiness:
with a non-empty `templateKey` and `dataKey`, a decoded non-nil empty
object (`"data": \x7b\x7d`) is rejected with the mutual-exclusion `400`,
while a nil map (`"data": null` or the field omitted) passes validation
— its response is never a `400` — and the data is resolved from the
store: the request's storage trace starts with the `fetchData` trace
for `dataKey`, whose first operation opens the bucket. -/
theorem handleGenerate_nilness_decides_presence
    (env : ServerEnv) (s : Server) (tk dk : String)
    (htk : tk ≠ "") (hdk : dk ≠ "") :
    (handleGenerate env s (.ok ⟨tk, some [], dk⟩)).1 =
      httpError "cannot specify both 'data' and 'dataKey'" 400 ∧
    (handleGenerate env s (.ok ⟨tk, none, dk⟩)).1.status ≠ 400 ∧
    (∃ rest, (handleGenerate env s (.ok ⟨tk, none, dk⟩)).2 =
      (fetchData env s dk).2 ++ rest) ∧
    (fetchData env s dk).2.head? = some StorageOp.openBucket := by
  refine ⟨by simp [handleGenerate, htk, hdk], ?_, ?_, ?_⟩
  · rcases hfd : (fetchData env s dk).1 with e | d
    · simp [handleGenerate, resolveData, htk, hdk, hfd, httpError]
    · rcases htr : (fetchTemplate env s tk).1 with e | src
      · simp [handleGenerate, resolveData, htk, hdk, hfd, htr, httpError]
      · rcases hcr : env.compileResult src d with e | pdf
        · simp [handleGenerate, resolveData, htk, hdk, hfd, htr, hcr, httpError]
        · simp [handleGenerate, resolveData, htk, hdk, hfd, htr, hcr]
  · rcases hfd : (fetchData env s dk).1 with e | d
    · exact ⟨[], by simp [handleGenerate, resolveData, htk, hdk, hfd]⟩
    · rcases htr : (fetchTemplate env s tk).1 with e | src
      · exact ⟨(fetchTemplate env s tk).2,
          by simp [handleGenerate, resolveData, htk, hdk, hfd, htr]⟩
      · rcases hcr : env.compileResult src d with e | pdf
        · exact ⟨(fetchTemplate env s tk).2,
            by simp [handleGenerate, resolveData, htk, hdk, hfd, htr, hcr]⟩
        · exact ⟨(fetchTemplate env s tk).2,
            by simp [handleGenerate, resolveData, htk, hdk, hfd, htr, hcr]⟩
  · unfold fetchData fetchFromBucket
    cases ho : env.openOk
    · simp
    · rcases hobj : env.objects dk with _ | content
      · simp [hobj]
      · rcases hre : env.readErr with _ | e
        · rcases hp : env.jsonParse (content.take s.config.maxDataSize.toNat)
            with pe | pd <;> simp [hobj, hre, hp]
        · simp [hobj, hre]

theorem handleGenerate_nilness_decides_presence_witness :
    (handleGenerate testEnv testServer (.ok ⟨"tpl", some [], "d"⟩)).1 =
      httpError "cannot specify both 'data' and 'dataKey'" 400 ∧
    (handleGenerate testEnv testServer (.ok ⟨"tpl", none, "d"⟩)).1.status ≠ 400 ∧
    (fetchData testEnv testServer "d").2.head? = some StorageOp.openBucket :=
  ⟨(handleGenerate_nilness_decides_presence testEnv testServer "tpl" "d"
      (by decide) (by decide)).1,
   (handleGenerate_nilness_decides_presence testEnv testServer "tpl" "d"
      (by decide) (by decide)).2.1,
   (handleGenerate_nilness_decides_presence testEnv testServer "tpl" "d"
      (by decide) (by decide)).2.2.2⟩

/-- C8: a request that passes validation, resolves its data, fetches
its template and compiles successfully is answered `200` with
`Content-Type: application/pdf`, `Content-Disposition: inline;
filename="output.pdf"`, and a body equal to the compiler's output
artifact. -/
theorem handleGenerate_success_response
    (env : ServerEnv) (s : Server) (req : GenerateRequest)
    (d : Option DataMap) (src : String) (pdf : Bytes)
    (htk : req.templateKey ≠ "")
    (hnc : ¬ (req.data.isSome ∧ req.dataKey ≠ ""))
    (hres : (resolveData env s req).1 = .ok d)
    (hfetch : (fetchTemplate env s req.templateKey).1 = .ok src)
    (hcomp : env.compileResult src d = .ok pdf) :
    (handleGenerate env s (.ok req)).1 =
      { status := 200
        contentType := some "application/pdf"
        contentDisposition := some "inline; filename=\"output.pdf\""
        body := bytesToStr pdf } := by
  simp [handleGenerate, htk, hnc, hres, hfetch, hcomp]

theorem handleGenerate_success_response_witness :
    (handleGenerate testEnv testServer (.ok ⟨"tpl", none, ""⟩)).1 =
      { status := 200
        contentType := some "application/pdf"
        contentDisposition := some "inline; filename=\"output.pdf\""
        body := bytesToStr [37, 80, 68, 70] } :=
  handleGenerate_success_response testEnv testServer ⟨"tpl", none, ""⟩ none
    (bytesToStr [61, 32, 72, 105]) [37, 80, 68, 70]
    (by decide) (by decide) rfl rfl rfl

/-- C4 (counterexample): for the stored key `zz.json` holding the
single byte `\x7b` — not valid JSON — the resolution error is exactly
`invalid JSON: unexpected end of JSON input` and the response body is
its `failed to fetch data: `-prefixed form; neither mentions the key
`zz.json` anywhere, so the error does not preserve the original key. -/
theorem fetchData_invalid_json_key_not_preserved_cex :
    (fetchData testEnv testServer "zz.json").1 =
      .error "invalid JSON: unexpected end of JSON input" ∧
    ¬ containsStr "invalid JSON: unexpected end of JSON input" "zz.json" ∧
    (handleGenerate testEnv testServer (.ok ⟨"tpl", none, "zz.json"⟩)).1.body =
      "failed to fetch data: invalid JSON: unexpected end of JSON input\n" ∧
    ¬ containsStr
        "failed to fetch data: invalid JSON: unexpected end of JSON input\n"
        "zz.json" := by
  refine ⟨rfl, ?_, rfl, ?_⟩
  · exact not_containsStr_of_char _ _ 'z' (by decide) (by decide)
  · exact not_containsStr_of_char _ _ 'z' (by decide) (by decide)

/-- C4 (amended): when the bytes fetched for a non-empty `dataKey` fail
to parse as JSON, data resolution fails with `invalid JSON: ` wrapping
the parser error, and the response is `500` with body
`failed to fetch data: ` followed by that message — the key itself is
not part of the message. -/
theorem fetchData_invalid_json_wraps_parser_error
    (env : ServerEnv) (s : Server) (tk key : String) (raw : Bytes) (perr : String)
    (htk : tk ≠ "") (hkey : key ≠ "")
    (hfetch : (fetchFromBucket env key s.config.maxDataSize).1 = .ok raw)
    (hparse : env.jsonParse raw = .error perr) :
    (fetchData env s key).1 = .error ("invalid JSON: " ++ perr) ∧
    containsStr ("invalid JSON: " ++ perr) "invalid JSON" ∧
    (handleGenerate env s (.ok ⟨tk, none, key⟩)).1 =
      httpError ("failed to fetch data: " ++ ("invalid JSON: " ++ perr)) 500 ∧
    (handleGenerate env s (.ok ⟨tk, none, key⟩)).1.status = 500 ∧
    containsStr (handleGenerate env s (.ok ⟨tk, none, key⟩)).1.body
      "invalid JSON" := by
  have hfd : (fetchData env s key).1 = .error ("invalid JSON: " ++ perr) := by
    simp [fetchData, hfetch, hparse]
  have hh : (handleGenerate env s (.ok ⟨tk, none, key⟩)).1 =
      httpError ("failed to fetch data: " ++ ("invalid JSON: " ++ perr)) 500 := by
    simp [handleGenerate, resolveData, htk, hkey, hfd]
  have hsep : "invalid JSON: ".data = "invalid JSON".data ++ [':', ' '] := by decide
  refine ⟨hfd, ?_, hh, by rw [hh]; rfl, ?_⟩
  · exact ⟨[], ':' :: ' ' :: perr.data,
      by simp [String.data_append, hsep]⟩
  · rw [hh]
    have hpre : "failed to fetch data: invalid JSON".data =
        "failed to fetch data: ".data ++ "invalid JSON".data := by decide
    refine ⟨"failed to fetch data: ".data, ':' :: ' ' :: (perr.data ++ ['\n']), ?_⟩
    simp [httpError, String.data_append, hsep]

theorem fetchData_invalid_json_wraps_parser_error_witness :
    (fetchData testEnv testServer "zz.json").1 =
      .error ("invalid JSON: " ++ "unexpected end of JSON input") ∧
    (handleGenerate testEnv testServer (.ok ⟨"tpl", none, "zz.json"⟩)).1.status = 500 :=
  ⟨(fetchData_invalid_json_wraps_parser_error testEnv testServer "tpl" "zz.json"
      [123] "unexpected end of JSON input" (by decide) (by decide) rfl rfl).1,
   (fetchData_invalid_json_wraps_parser_error testEnv testServer "tpl" "zz.json"
      [123] "unexpected end of JSON input" (by decide) (by decide) rfl rfl).2.2.2.1⟩

/-- C2: whenever the temporary working directory is created
successfully, `compileTypstWith` removes it together with everything
under it before returning, on every exit path — the environment `env`
ranges over all outcomes of the marshal step, both file writes, the
compiler run and the output read. -/
theorem compileTypstWith_always_removes_workdir
    (env : CompileEnv) (fs0 : FS) (source : String) (data : Option DataMap)
    (w : String) (hmk : env.mkdirTemp fs0 = .ok w) :
    fsLookup (compileTypstWith env fs0 source data).2.1 w = none ∧
    ∀ p, underDir w p →
      fsLookup (compileTypstWith env fs0 source data).2.1 p = none := by
  have hred : (compileTypstWith env fs0 source data).2.1 =
      fsRemoveAll (compileTypstBody env (fsWrite fs0 w .dir) w source data).2.1 w := by
    simp [compileTypstWith, hmk]
  refine ⟨?_, fun p hp => ?_⟩
  · rw [hred]
    exact fsLookup_fsRemoveAll _ _ _ (Or.inl rfl)
  · rw [hred]
    exact fsLookup_fsRemoveAll _ _ _ (Or.inr hp)

/-- A concrete compilation environment: every step succeeds, and the
compiler writes a two-byte `output.pdf` into the workspace. -/
def testCompileEnv : CompileEnv where
  mkdirTemp := fun _ => .ok "/tmp/typst-123"
  marshalIndent := fun _ => .ok [123, 10, 125]
  writeRes := fun _ => .ok ()
  compilerRun := fun fs w =>
    (.ok (), fsWrite fs (w ++ "/" ++ outputFileName) (.file [37, 80] 420))
  readOutputErr := "no such file or directory"

theorem compileTypstWith_always_removes_workdir_witness :
    fsLookup (compileTypstWith testCompileEnv [] "= Hi" none).2.1
      "/tmp/typst-123" = none ∧
    fsLookup (compileTypstWith testCompileEnv [] "= Hi" none).2.1
      "/tmp/typst-123/output.pdf" = none :=
  ⟨(compileTypstWith_always_removes_workdir testCompileEnv [] "= Hi" none
      "/tmp/typst-123" rfl).1,
   (compileTypstWith_always_removes_workdir testCompileEnv [] "= Hi" none
      "/tmp/typst-123" rfl).2 "/tmp/typst-123/output.pdf" (by decide)⟩

/-- C5: inside the workspace `w`, non-nil data is serialized by the
marshal step and written to `data.json` (a marshal failure aborts the
call with `failed to marshal data: `); nil data writes no data file;
the source text is written to `main.typ` with permissions 0600 (as is
the data file); and on compiler success the call returns exactly the
bytes of `output.pdf` in the workspace left by the compiler. -/
theorem compileTypstWith_workspace_files
    (env : CompileEnv) (fs0 : FS) (source : String) (w : String)
    (hmk : env.mkdirTemp fs0 = .ok w) :
    (∀ d e, env.marshalIndent d = .error e →
      (compileTypstWith env fs0 source (some d)).1 =
        .error ("failed to marshal data: " ++ e)) ∧
    (∀ d dataBytes, env.marshalIndent d = .ok dataBytes →
      env.writeRes (w ++ "/" ++ dataFileName) = .ok () →
      env.writeRes (w ++ "/" ++ sourceFileName) = .ok () →
      (compileTypstWith env fs0 source (some d)).2.2 =
        [⟨w ++ "/" ++ dataFileName, dataBytes, filePermissions⟩,
         ⟨w ++ "/" ++ sourceFileName, strBytes source, filePermissions⟩]) ∧
    (env.writeRes (w ++ "/" ++ sourceFileName) = .ok () →
      (compileTypstWith env fs0 source none).2.2 =
        [⟨w ++ "/" ++ sourceFileName, strBytes source, filePermissions⟩]) ∧
    (∀ fs2 pdfBytes perm,
      env.writeRes (w ++ "/" ++ sourceFileName) = .ok () →
      env.compilerRun
          (fsWrite (fsWrite fs0 w .dir) (w ++ "/" ++ sourceFileName)
            (.file (strBytes source) filePermissions)) w = (.ok (), fs2) →
      fsLookup fs2 (w ++ "/" ++ outputFileName) = some (.file pdfBytes perm) →
      (compileTypstWith env fs0 source none).1 = .ok pdfBytes) ∧
    (∀ d dataBytes fs2 pdfBytes perm,
      env.marshalIndent d = .ok dataBytes →
      env.writeRes (w ++ "/" ++ dataFileName) = .ok () →
      env.writeRes (w ++ "/" ++ sourceFileName) = .ok () →
      env.compilerRun
          (fsWrite (fsWrite (fsWrite fs0 w .dir) (w ++ "/" ++ dataFileName)
              (.file dataBytes filePermissions)) (w ++ "/" ++ sourceFileName)
            (.file (strBytes source) filePermissions)) w = (.ok (), fs2) →
      fsLookup fs2 (w ++ "/" ++ outputFileName) = some (.file pdfBytes perm) →
      (compileTypstWith env fs0 source (some d)).1 = .ok pdfBytes) := by
  have htrace : ∀ fs tr, env.writeRes (w ++ "/" ++ sourceFileName) = .ok () →
      (compileAfterData env fs w source tr).2.2 =
        tr ++ [⟨w ++ "/" ++ sourceFileName, strBytes source, filePermissions⟩] := by
    intro fs tr hws
    simp only [compileAfterData, hws]
    split
    · rfl
    · split <;> rfl
  refine ⟨?_, ?_, ?_, ?_, ?_⟩
  · intro d e hm
    simp [compileTypstWith, compileTypstBody, hmk, hm]
  · intro d dataBytes hm hwd hws
    simp [compileTypstWith, compileTypstBody, hmk, hm, hwd, htrace _ _ hws]
  · intro hws
    simp [compileTypstWith, compileTypstBody, hmk, htrace _ _ hws]
  · intro fs2 pdfBytes perm hws hcr hout
    simp [compileTypstWith, compileTypstBody, compileAfterData, hmk, hws, hcr, hout]
  · intro d dataBytes fs2 pdfBytes perm hm hwd hws hcr hout
    simp [compileTypstWith, compileTypstBody, compileAfterData, hmk, hm, hwd, hws,
      hcr, hout]

theorem compileTypstWith_workspace_files_witness :
    (compileTypstWith testCompileEnv [] "= Hi" none).2.2 =
      [⟨"/tmp/typst-123" ++ "/" ++ sourceFileName, strBytes "= Hi", filePermissions⟩] ∧
    (compileTypstWith testCompileEnv [] "= Hi" none).1 = .ok [37, 80] ∧
    (compileTypstWith testCompileEnv [] "= Hi" (some [])).2.2 =
      [⟨"/tmp/typst-123" ++ "/" ++ dataFileName, [123, 10, 125], filePermissions⟩,
       ⟨"/tmp/typst-123" ++ "/" ++ sourceFileName, strBytes "= Hi", filePermissions⟩] :=
  ⟨(compileTypstWith_workspace_files testCompileEnv [] "= Hi" "/tmp/typst-123"
      rfl).2.2.1 rfl,
   (compileTypstWith_workspace_files testCompileEnv [] "= Hi" "/tmp/typst-123"
      rfl).2.2.2.1 _ [37, 80] 420 rfl rfl (by decide),
   (compileTypstWith_workspace_files testCompileEnv [] "= Hi" "/tmp/typst-123"
      rfl).2.1 [] [123, 10, 125] rfl rfl rfl⟩

end Givetypst
